import Mathlib

/-!
Shallow embedding of the HTTP request-with-retry helpers of
`src/asaniczka/main.py` (functions `get_request`, `async_get_request`,
`post_request`, `async_post_request`), together with theorems checking the
natural-language specification against the code.

The network transport (the `requests` / `httpx` calls, including url, proxy,
session, payload and timeout) is abstracted into a `Stub`: a function from the
attempt index to the outcome of that transport call.  Each loop iteration of
the Python code performs exactly one transport call, and the `retries` counter
equals the number of completed iterations at the head of each iteration, so
indexing the stub by `retries` reproduces the chronological call order.
Logging (`logger.debug` / `logger.warning` / `print`) is observability only
and is not modelled.
-/

set_option maxRecDepth 10000

namespace Asaniczka

/-- A header mapping, modelled as an association list (Python `dict`). -/
abbrev Headers := List (String × String)

/-- The default headers of `main.py`: the fixed User-Agent dict that every
request variant substitutes when the caller-supplied `headers` is falsy. -/
def default_headers : Headers :=
  [("User-Agent",
    "Mozilla/5.0 (X11; Ubuntu; Linux x86_64; rv:109.0) Gecko/20100101 Firefox/119.0")]

/-- Python truthiness test `not headers` for a `headers: dict = None`
parameter: `None` and the empty dict are falsy, every non-empty dict truthy. -/
def headersFalsy : Option Headers → Bool
  | none => true
  | some h => h.isEmpty

/-- Outcome of one transport call: either the HTTP client raised a
transport-level exception (connection error, timeout, DNS failure, ...) or an
HTTP response with a status code and a body text arrived. -/
inductive TResult where
  | exn : TResult
  | resp (status : Nat) (body : String) : TResult
deriving Repr, DecidableEq

/-- A deterministic transport stub: attempt index (0-based) to outcome. -/
abbrev Stub := Nat → TResult

/-- `str(error).replace("\n", "")` from `format_error`: replacing the
one-character string `"\n"` by the empty string removes every newline. -/
def stripNewlines (s : String) : String :=
  String.mk (s.data.filter (fun c => c ≠ '\n'))

/-- `format_error` from `main.py`: a type-annotated, newline-stripped
rendering of the response body / exception. -/
def format_error (error : String) : String :=
  "Error Type: <class str>, Error: " ++ stripNewlines error

/-- The Python exceptions the four request variants can raise.
`runtimeUnexpectedStatus` is the in-loop `RuntimeError` raised on a fatal
status; `runtimeRetryExhausted` is the post-loop `RuntimeError` raised once
the retry budget is spent; `unboundLocalResponse` is the `UnboundLocalError`
Python raises when the post-loop f-string reads `response.status_code` but
`response` was never assigned (every attempt raised a transport exception);
`typeErrorStrNotCallable` is the `TypeError` raised while building a raise's
f-string when the code calls `response.text()` on an httpx response, whose
`.text` is a `str` property — it carries neither status nor body. -/
inductive PyError where
  | runtimeUnexpectedStatus (status : Nat) (bodyRendering : String) : PyError
  | runtimeRetryExhausted (status : Nat) (bodyRendering : String) : PyError
  | unboundLocalResponse : PyError
  | typeErrorStrNotCallable : PyError
deriving Repr, DecidableEq

/-- Observable record of one call to a request variant: the returned value or
raised exception, the number of transport calls made, the wall-clock sleeps
actually performed (in seconds, chronological), and the headers dict passed to
each transport call (chronological). -/
structure RunRec where
  result : Except PyError (Option String)
  attempts : Nat
  sleeps : List Nat
  headersUsed : List Headers
deriving Repr

/-- The retryable-status test shared by all four variants:
`status_code == 420 or status_code == 429 or status_code >= 500`. -/
def retryableStatus (status : Nat) : Bool :=
  status == 420 || status == 429 || decide (500 ≤ status)

/-- A transport outcome that makes the loop `continue` (consuming one more
attempt): a transport exception, or a non-200 response whose status passes
`retryableStatus`.  Every other outcome (200, or a fatal status) breaks or
raises out of the loop. -/
def causesRetry : TResult → Bool
  | .exn => true
  | .resp status _ => status != 200 && retryableStatus status

/--
The `while retries < 5` loop of `get_request` (main.py lines 496-580),
compiled to recursion on the remaining iteration budget `fuel`
(`fuel = 5 - retries` at entry); `retries` is kept as a separate argument
because it indexes the transport stub.

* `fuel = 0` is the loop exiting by its guard; the code then runs
  `if retries >= 5: if not silence_exceptions: raise RuntimeError(f"... {response.status_code} ...")`
  and returns `content` (still `None`).  The f-string reads `response`, which
  is unbound when no attempt ever produced a response.
* The `break` paths (status 200, or fatal status with `silence_exceptions`)
  return directly: on every `break` the guard `retries >= 5` of the post-loop
  check is false, because `break` never increments `retries` past the guard.
* `headers0` threads the caller's `headers` variable: each iteration runs
  `if not headers: headers = {"User-Agent": ...}` before the transport call.
* `response` threads the last HTTP response assigned to the local `response`
  (transport exceptions leave it unchanged).
-/
def get_request_loop (stub : Stub) (silence_exceptions : Bool)
    (retry_sleep_time : Nat) :
    Nat → Nat → Option Headers → Option (Nat × String) → RunRec
  | 0, _retries, _headers0, response =>
      if silence_exceptions then
        { result := .ok none, attempts := 0, sleeps := [], headersUsed := [] }
      else
        match response with
        | some (status, text) =>
            { result := .error (.runtimeRetryExhausted status (format_error text)),
              attempts := 0, sleeps := [], headersUsed := [] }
        | none =>
            { result := .error .unboundLocalResponse,
              attempts := 0, sleeps := [], headersUsed := [] }
  | fuel + 1, retries, headers0, response =>
      let headers := if headersFalsy headers0 then some default_headers else headers0
      let hs := headers.getD default_headers
      match stub retries with
      | .exn =>
          let rest := get_request_loop stub silence_exceptions retry_sleep_time
            fuel (retries + 1) headers response
          { rest with attempts := rest.attempts + 1, headersUsed := hs :: rest.headersUsed }
      | .resp status text =>
          if status == 200 then
            { result := .ok (some text), attempts := 1, sleeps := [],
              headersUsed := [hs] }
          else if retryableStatus status then
            let rest := get_request_loop stub silence_exceptions retry_sleep_time
              fuel (retries + 1) headers (some (status, text))
            { rest with attempts := rest.attempts + 1,
                        sleeps := retry_sleep_time :: rest.sleeps,
                        headersUsed := hs :: rest.headersUsed }
          else if silence_exceptions then
            { result := .ok none, attempts := 1, sleeps := [], headersUsed := [hs] }
          else
            { result := .error (.runtimeUnexpectedStatus status (format_error text)),
              attempts := 1, sleeps := [], headersUsed := [hs] }

/-- `get_request` (main.py lines 461-580): 5-attempt budget, `content = None`,
`retries = 0` at entry, last `response` initially unassigned. -/
def get_request (stub : Stub) (headers : Option Headers)
    (silence_exceptions : Bool) (retry_sleep_time : Nat) : RunRec :=
  get_request_loop stub silence_exceptions retry_sleep_time 5 0 headers none

/--
The `while retries < 5` loop of `async_get_request` (main.py lines 583-690).
The transport is `httpx.AsyncClient` (line 627) and the retry sleep is really
awaited (`await asyncio.sleep(retry_sleep_time)` at line 669, so the delay
elapses); the success path reads the `str` property `response.text` (line
646) and returns the body directly.  Unlike the other three variants, the
non-silenced fatal raise (line 676) and the non-silenced post-loop exhaustion
raise (line 684) interpolate `format_error(await response.text())`: httpx's
`Response.text` is a `str` property, so calling it raises
`TypeError: str object is not callable` while the f-string is being built,
before any `RuntimeError` exists — those two paths surface a `TypeError`
carrying neither status nor body.  In the exhaustion f-string,
`response.status_code` is evaluated first (left to right), so when no
response was ever assigned the error is still `UnboundLocalError`.  The call
is modelled with no logger passed (logging is observability only); with a
logger, the non-200 logging lines 655 and 661 would raise the same
`TypeError` earlier.
-/
def async_get_request_loop (stub : Stub) (silence_exceptions : Bool)
    (retry_sleep_time : Nat) :
    Nat → Nat → Option Headers → Option (Nat × String) → RunRec
  | 0, _retries, _headers0, response =>
      if silence_exceptions then
        { result := .ok none, attempts := 0, sleeps := [], headersUsed := [] }
      else
        match response with
        | some _ =>
            { result := .error .typeErrorStrNotCallable,
              attempts := 0, sleeps := [], headersUsed := [] }
        | none =>
            { result := .error .unboundLocalResponse,
              attempts := 0, sleeps := [], headersUsed := [] }
  | fuel + 1, retries, headers0, response =>
      let headers := if headersFalsy headers0 then some default_headers else headers0
      let hs := headers.getD default_headers
      match stub retries with
      | .exn =>
          let rest := async_get_request_loop stub silence_exceptions retry_sleep_time
            fuel (retries + 1) headers response
          { rest with attempts := rest.attempts + 1, headersUsed := hs :: rest.headersUsed }
      | .resp status text =>
          if status == 200 then
            { result := .ok (some text), attempts := 1, sleeps := [],
              headersUsed := [hs] }
          else if retryableStatus status then
            let rest := async_get_request_loop stub silence_exceptions retry_sleep_time
              fuel (retries + 1) headers (some (status, text))
            { rest with attempts := rest.attempts + 1,
                        sleeps := retry_sleep_time :: rest.sleeps,
                        headersUsed := hs :: rest.headersUsed }
          else if silence_exceptions then
            { result := .ok none, attempts := 1, sleeps := [], headersUsed := [hs] }
          else
            { result := .error .typeErrorStrNotCallable,
              attempts := 1, sleeps := [], headersUsed := [hs] }

/-- `async_get_request` (main.py lines 583-690): 5-attempt budget. -/
def async_get_request (stub : Stub) (headers : Option Headers)
    (silence_exceptions : Bool) (retry_sleep_time : Nat) : RunRec :=
  async_get_request_loop stub silence_exceptions retry_sleep_time 5 0 headers none

/--
The `while retries <= retry_count` loop of `post_request` (main.py lines
730-858).  The guard admits `retry_count + 1` iterations (retries runs
0, 1, ..., retry_count), so the iteration budget is `retry_count + 1`; the
post-loop check is `if retries > retry_count`, true exactly when the loop
exited by its guard.  The branch structure is otherwise that of
`get_request`.
-/
def post_request_loop (stub : Stub) (silence_exceptions : Bool)
    (retry_sleep_time : Nat) :
    Nat → Nat → Option Headers → Option (Nat × String) → RunRec
  | 0, _retries, _headers0, response =>
      if silence_exceptions then
        { result := .ok none, attempts := 0, sleeps := [], headersUsed := [] }
      else
        match response with
        | some (status, text) =>
            { result := .error (.runtimeRetryExhausted status (format_error text)),
              attempts := 0, sleeps := [], headersUsed := [] }
        | none =>
            { result := .error .unboundLocalResponse,
              attempts := 0, sleeps := [], headersUsed := [] }
  | fuel + 1, retries, headers0, response =>
      let headers := if headersFalsy headers0 then some default_headers else headers0
      let hs := headers.getD default_headers
      match stub retries with
      | .exn =>
          let rest := post_request_loop stub silence_exceptions retry_sleep_time
            fuel (retries + 1) headers response
          { rest with attempts := rest.attempts + 1, headersUsed := hs :: rest.headersUsed }
      | .resp status text =>
          if status == 200 then
            { result := .ok (some text), attempts := 1, sleeps := [],
              headersUsed := [hs] }
          else if retryableStatus status then
            let rest := post_request_loop stub silence_exceptions retry_sleep_time
              fuel (retries + 1) headers (some (status, text))
            { rest with attempts := rest.attempts + 1,
                        sleeps := retry_sleep_time :: rest.sleeps,
                        headersUsed := hs :: rest.headersUsed }
          else if silence_exceptions then
            { result := .ok none, attempts := 1, sleeps := [], headersUsed := [hs] }
          else
            { result := .error (.runtimeUnexpectedStatus status (format_error text)),
              attempts := 1, sleeps := [], headersUsed := [hs] }

/-- `post_request` (main.py lines 730-858): the only variant with a
configurable budget; `while retries <= retry_count` admits
`retry_count + 1` iterations.  The POST payload is absorbed into the stub. -/
def post_request (stub : Stub) (headers : Option Headers)
    (silence_exceptions : Bool) (retry_count : Nat) (retry_sleep_time : Nat) :
    RunRec :=
  post_request_loop stub silence_exceptions retry_sleep_time
    (retry_count + 1) 0 headers none

/--
The `while retries < 5` loop of `async_post_request` (main.py lines 861-945).
Same branch structure as `get_request`, with one behavioural difference: the
retryable branch (line 914) calls `asyncio.sleep(retry_sleep_time)` WITHOUT
`await`, so the coroutine is created and discarded and no wall-clock delay
elapses; accordingly this branch records no sleep.
-/
def async_post_request_loop (stub : Stub) (silence_exceptions : Bool)
    (retry_sleep_time : Nat) :
    Nat → Nat → Option Headers → Option (Nat × String) → RunRec
  | 0, _retries, _headers0, response =>
      if silence_exceptions then
        { result := .ok none, attempts := 0, sleeps := [], headersUsed := [] }
      else
        match response with
        | some (status, text) =>
            { result := .error (.runtimeRetryExhausted status (format_error text)),
              attempts := 0, sleeps := [], headersUsed := [] }
        | none =>
            { result := .error .unboundLocalResponse,
              attempts := 0, sleeps := [], headersUsed := [] }
  | fuel + 1, retries, headers0, response =>
      let headers := if headersFalsy headers0 then some default_headers else headers0
      let hs := headers.getD default_headers
      match stub retries with
      | .exn =>
          let rest := async_post_request_loop stub silence_exceptions retry_sleep_time
            fuel (retries + 1) headers response
          { rest with attempts := rest.attempts + 1, headersUsed := hs :: rest.headersUsed }
      | .resp status text =>
          if status == 200 then
            { result := .ok (some text), attempts := 1, sleeps := [],
              headersUsed := [hs] }
          else if retryableStatus status then
            let rest := async_post_request_loop stub silence_exceptions retry_sleep_time
              fuel (retries + 1) headers (some (status, text))
            { rest with attempts := rest.attempts + 1,
                        headersUsed := hs :: rest.headersUsed }
          else if silence_exceptions then
            { result := .ok none, attempts := 1, sleeps := [], headersUsed := [hs] }
          else
            { result := .error (.runtimeUnexpectedStatus status (format_error text)),
              attempts := 1, sleeps := [], headersUsed := [hs] }

/-- `async_post_request` (main.py lines 861-945): 5-attempt budget. -/
def async_post_request (stub : Stub) (headers : Option Headers)
    (silence_exceptions : Bool) (retry_sleep_time : Nat) : RunRec :=
  async_post_request_loop stub silence_exceptions retry_sleep_time 5 0 headers none

/-- The value of the Python local `response` after running `fuel` iterations
that all continue, starting at attempt index `retries` with `response`
currently holding `acc`: transport exceptions leave it unchanged, HTTP
responses overwrite it.  This is the "last observed response" of the spec. -/
def finalResponse (stub : Stub) :
    Nat → Nat → Option (Nat × String) → Option (Nat × String)
  | 0, _retries, acc => acc
  | fuel + 1, retries, acc =>
      match stub retries with
      | .exn => finalResponse stub fuel (retries + 1) acc
      | .resp status text => finalResponse stub fuel (retries + 1) (some (status, text))

/-- Number of HTTP responses among the stub outcomes at indices
`retries, ..., retries + fuel - 1` (each one, on an all-retry run, triggers
one sleep in the variants that really sleep). -/
def respCount (stub : Stub) : Nat → Nat → Nat
  | 0, _retries => 0
  | fuel + 1, retries =>
      match stub retries with
      | .exn => respCount stub fuel (retries + 1)
      | .resp _ _ => respCount stub fuel (retries + 1) + 1

/-- The headers dict actually passed to the transport by an iteration whose
`headers` local currently holds `headers0`: the effect of
`if not headers: headers = {"User-Agent": ...}` followed by using `headers`. -/
def resolveHeaders (headers0 : Option Headers) : Headers :=
  (if headersFalsy headers0 then some default_headers else headers0).getD default_headers

/- ### Helper lemmas -/

/-- Resolving the default dict leaves it unchanged (it is non-empty). -/
theorem resolveHeaders_some_default :
    resolveHeaders (some default_headers) = default_headers := rfl

/-- Resolving is stable across iterations: the `headers` variable the loop
passes to the next iteration resolves to the same dict. -/
theorem resolveHeaders_step (headers0 : Option Headers) :
    resolveHeaders (if headersFalsy headers0 then some default_headers else headers0)
      = resolveHeaders headers0 := by
  cases hf : headersFalsy headers0
  · simp [hf]
  · simp only [hf, if_true, resolveHeaders_some_default]
    unfold resolveHeaders
    rw [hf]
    rfl

/-- `async_get_request_loop` agrees with `get_request_loop` on attempts,
sleeps and headers: the loops take the same branches on the same stub; they
differ only in the exception surfaced on the non-silenced fatal and
exhaustion raises (`TypeError` versus `RuntimeError`). -/
theorem async_get_request_loop_fields (stub : Stub) (sil : Bool) (t : Nat) :
    ∀ (fuel retries : Nat) (headers0 : Option Headers)
      (response : Option (Nat × String)),
      (async_get_request_loop stub sil t fuel retries headers0 response).attempts
        = (get_request_loop stub sil t fuel retries headers0 response).attempts
    ∧ (async_get_request_loop stub sil t fuel retries headers0 response).sleeps
        = (get_request_loop stub sil t fuel retries headers0 response).sleeps
    ∧ (async_get_request_loop stub sil t fuel retries headers0 response).headersUsed
        = (get_request_loop stub sil t fuel retries headers0 response).headersUsed := by
  intro fuel
  induction fuel with
  | zero =>
      intro r h acc
      cases sil <;> rcases acc with _ | ⟨s, b⟩ <;> exact ⟨rfl, rfl, rfl⟩
  | succ n ih =>
      intro r h acc
      simp only [async_get_request_loop, get_request_loop]
      cases stub r with
      | exn =>
          obtain ⟨i1, i2, i3⟩ :=
            ih (r + 1) (if headersFalsy h then some default_headers else h) acc
          exact ⟨by simp [i1], by simp [i2], by simp [i3]⟩
      | resp status text =>
          by_cases h200 : (status == 200) = true
          · simp [h200]
          · by_cases hrt : retryableStatus status = true
            · simp only [h200, hrt, Bool.false_eq_true, if_false, if_true]
              obtain ⟨i1, i2, i3⟩ :=
                ih (r + 1) (if headersFalsy h then some default_headers else h)
                  (some (status, text))
              exact ⟨by simp [i1], by simp [i2], by simp [i3]⟩
            · cases sil <;> simp [h200, hrt]

/-- Master lemma for `async_get_request_loop`: on a run where every in-budget
stub outcome causes a retry and `silence_exceptions` is false, the exhaustion
raise surfaces `TypeError` when a response was observed (its f-string calls
the `str` property `response.text`), and `UnboundLocalError` when none was
(the f-string reads `response.status_code` first); silenced runs return
`None`. -/
theorem async_get_request_loop_all_retry (stub : Stub) (sil : Bool) (t : Nat) :
    ∀ (fuel retries : Nat) (headers0 : Option Headers)
      (response : Option (Nat × String)),
      (∀ i, retries ≤ i → i < retries + fuel → causesRetry (stub i) = true) →
      (async_get_request_loop stub sil t fuel retries headers0 response).result
          = (if sil then Except.ok none else
              match finalResponse stub fuel retries response with
              | some _ => Except.error PyError.typeErrorStrNotCallable
              | none => Except.error PyError.unboundLocalResponse) := by
  intro fuel
  induction fuel with
  | zero =>
      intro r h acc _
      cases sil with
      | true => rfl
      | false =>
          rcases acc with _ | ⟨s, b⟩
          · rfl
          · rfl
  | succ n ih =>
      intro r h acc hall
      have hr0 : causesRetry (stub r) = true := hall r (Nat.le_refl r) (by omega)
      have hall' : ∀ i, r + 1 ≤ i → i < r + 1 + n → causesRetry (stub i) = true := by
        intro i h1 h2
        exact hall i (by omega) (by omega)
      simp only [async_get_request_loop, finalResponse]
      cases hstub : stub r with
      | exn =>
          exact ih (r + 1) (if headersFalsy h then some default_headers else h) acc hall'
      | resp status text =>
          rw [hstub] at hr0
          simp only [causesRetry, Bool.and_eq_true] at hr0
          have h200 : (status == 200) = false := by
            cases hb : status == 200
            · rfl
            · rw [bne, hb] at hr0
              exact absurd hr0.1 (by simp)
          simp only [h200, hr0.2, Bool.false_eq_true, if_false, if_true]
          exact ih (r + 1) (if headersFalsy h then some default_headers else h)
            (some (status, text)) hall'

/-- `post_request_loop` computes the same record as `get_request_loop`: the
loop bodies are identical, only the iteration budget at the call site
differs. -/
theorem post_request_loop_eq (stub : Stub) (sil : Bool) (t : Nat) :
    ∀ (fuel retries : Nat) (headers0 : Option Headers)
      (response : Option (Nat × String)),
      post_request_loop stub sil t fuel retries headers0 response
        = get_request_loop stub sil t fuel retries headers0 response := by
  intro fuel
  induction fuel with
  | zero => intro r h acc; rfl
  | succ n ih =>
      intro r h acc
      simp only [post_request_loop, get_request_loop]
      cases stub r with
      | exn => simp only [ih]
      | resp status text =>
          by_cases h200 : (status == 200) = true
          · simp only [h200, if_true]
          · by_cases hr : retryableStatus status = true
            · simp only [h200, hr, if_false, if_true, Bool.false_eq_true, ih]
            · simp only [h200, hr, if_false, Bool.false_eq_true]

/-- `async_post_request_loop` computes the same record as `get_request_loop`
except that it performs no wall-clock sleep at all: line 914 builds the
`asyncio.sleep` coroutine without awaiting it. -/
theorem async_post_request_loop_eq (stub : Stub) (sil : Bool) (t : Nat) :
    ∀ (fuel retries : Nat) (headers0 : Option Headers)
      (response : Option (Nat × String)),
      async_post_request_loop stub sil t fuel retries headers0 response
        = { get_request_loop stub sil t fuel retries headers0 response with
              sleeps := [] } := by
  intro fuel
  induction fuel with
  | zero =>
      intro r h acc
      simp only [async_post_request_loop, get_request_loop]
      cases sil with
      | true => rfl
      | false => cases acc with
          | none => rfl
          | some p => rfl
  | succ n ih =>
      intro r h acc
      simp only [async_post_request_loop, get_request_loop]
      cases stub r with
      | exn => simp only [ih]
      | resp status text =>
          by_cases h200 : (status == 200) = true
          · simp only [h200, if_true]
          · by_cases hr : retryableStatus status = true
            · simp only [h200, hr, if_false, if_true, Bool.false_eq_true, ih]
            · by_cases hs : sil = true <;>
                simp only [h200, hr, hs, if_false, if_true, Bool.false_eq_true]

/-- The loop makes at most `fuel` transport calls. -/
theorem get_request_loop_attempts_le (stub : Stub) (sil : Bool) (t : Nat) :
    ∀ (fuel retries : Nat) (headers0 : Option Headers)
      (response : Option (Nat × String)),
      (get_request_loop stub sil t fuel retries headers0 response).attempts ≤ fuel := by
  intro fuel
  induction fuel with
  | zero =>
      intro r h acc
      cases sil <;> rcases acc with _ | ⟨s, b⟩ <;> simp [get_request_loop]
  | succ n ih =>
      intro r h acc
      simp only [get_request_loop]
      cases hstub : stub r with
      | exn =>
          simp only []
          exact Nat.succ_le_succ (ih (r + 1) _ acc)
      | resp status text =>
          by_cases h200 : (status == 200) = true
          · simp only [h200, if_true]
            exact Nat.succ_le_succ (Nat.zero_le n)
          · by_cases hrt : retryableStatus status = true
            · simp only [h200, hrt, Bool.false_eq_true, if_false, if_true]
              exact Nat.succ_le_succ (ih (r + 1) _ (some (status, text)))
            · cases sil <;>
                simp only [h200, hrt, Bool.false_eq_true, if_false, if_true] <;>
                exact Nat.succ_le_succ (Nat.zero_le n)

/-- If the stub outcome at offset `j` from the current attempt index does not
cause a retry (HTTP 200, or a fatal status), the loop makes at most `j + 1`
transport calls: it stops the moment the non-retryable outcome is observed. -/
theorem get_request_loop_stop (stub : Stub) (sil : Bool) (t : Nat) :
    ∀ (fuel retries j : Nat) (headers0 : Option Headers)
      (response : Option (Nat × String)),
      causesRetry (stub (retries + j)) = false →
      (get_request_loop stub sil t fuel retries headers0 response).attempts ≤ j + 1 := by
  intro fuel
  induction fuel with
  | zero =>
      intro r j h acc _
      exact Nat.le_trans (get_request_loop_attempts_le stub sil t 0 r h acc)
        (Nat.zero_le _)
  | succ n ih =>
      intro r j h acc hj
      simp only [get_request_loop]
      cases hstub : stub r with
      | exn =>
          cases j with
          | zero =>
              rw [Nat.add_zero, hstub] at hj
              simp [causesRetry] at hj
          | succ j' =>
              simp only []
              have hj' : causesRetry (stub (r + 1 + j')) = false := by
                have harith : r + 1 + j' = r + (j' + 1) := by omega
                rw [harith]; exact hj
              exact Nat.succ_le_succ (ih (r + 1) j' _ acc hj')
      | resp status text =>
          by_cases h200 : (status == 200) = true
          · simp only [h200, if_true]
            exact Nat.succ_le_succ (Nat.zero_le j)
          · by_cases hrt : retryableStatus status = true
            · cases j with
              | zero =>
                  rw [Nat.add_zero, hstub] at hj
                  rw [Bool.not_eq_true] at h200
                  simp [causesRetry, bne, h200, hrt] at hj
              | succ j' =>
                  simp only [h200, hrt, Bool.false_eq_true, if_false, if_true]
                  have hj' : causesRetry (stub (r + 1 + j')) = false := by
                    have harith : r + 1 + j' = r + (j' + 1) := by omega
                    rw [harith]; exact hj
                  exact Nat.succ_le_succ (ih (r + 1) j' _ (some (status, text)) hj')
            · cases sil <;>
                simp only [h200, hrt, Bool.false_eq_true, if_false, if_true] <;>
                exact Nat.succ_le_succ (Nat.zero_le j)

/-- Master lemma: on a run where every in-budget stub outcome causes a retry,
the loop spends its whole budget, sleeps once (for `retry_sleep_time`) per
HTTP response received, and ends in the post-loop exhaustion branch reading
the last observed response. -/
theorem get_request_loop_all_retry (stub : Stub) (sil : Bool) (t : Nat) :
    ∀ (fuel retries : Nat) (headers0 : Option Headers)
      (response : Option (Nat × String)),
      (∀ i, retries ≤ i → i < retries + fuel → causesRetry (stub i) = true) →
      (get_request_loop stub sil t fuel retries headers0 response).result
          = (if sil then Except.ok none else
              match finalResponse stub fuel retries response with
              | some (s, b) =>
                  Except.error (PyError.runtimeRetryExhausted s (format_error b))
              | none => Except.error PyError.unboundLocalResponse)
        ∧ (get_request_loop stub sil t fuel retries headers0 response).attempts = fuel
        ∧ (get_request_loop stub sil t fuel retries headers0 response).sleeps
            = List.replicate (respCount stub fuel retries) t := by
  intro fuel
  induction fuel with
  | zero =>
      intro r h acc _
      cases sil with
      | true => exact ⟨rfl, rfl, rfl⟩
      | false =>
          rcases acc with _ | ⟨s, b⟩
          · exact ⟨rfl, rfl, rfl⟩
          · exact ⟨rfl, rfl, rfl⟩
  | succ n ih =>
      intro r h acc hall
      have hr0 : causesRetry (stub r) = true := hall r (Nat.le_refl r) (by omega)
      have hall' : ∀ i, r + 1 ≤ i → i < r + 1 + n → causesRetry (stub i) = true := by
        intro i h1 h2
        exact hall i (by omega) (by omega)
      simp only [get_request_loop, finalResponse, respCount]
      cases hstub : stub r with
      | exn =>
          obtain ⟨ih1, ih2, ih3⟩ :=
            ih (r + 1) (if headersFalsy h then some default_headers else h) acc hall'
          exact ⟨ih1, by simp [ih2], by simp [ih3]⟩
      | resp status text =>
          rw [hstub] at hr0
          simp only [causesRetry, Bool.and_eq_true] at hr0
          have h200 : (status == 200) = false := by
            cases hb : status == 200
            · rfl
            · rw [bne, hb] at hr0
              exact absurd hr0.1 (by simp)
          obtain ⟨ih1, ih2, ih3⟩ :=
            ih (r + 1) (if headersFalsy h then some default_headers else h)
              (some (status, text)) hall'
          simp only [h200, hr0.2, Bool.false_eq_true, if_false, if_true]
          exact ⟨ih1, by simp [ih2], by simp [ih3, List.replicate_succ]⟩

/-- Every headers dict handed to the transport is the resolution of the
caller-supplied one: the default User-Agent dict when the caller value is
falsy, the caller dict otherwise. -/
theorem get_request_loop_headers (stub : Stub) (sil : Bool) (t : Nat) :
    ∀ (fuel retries : Nat) (headers0 : Option Headers)
      (response : Option (Nat × String)) (e : Headers),
      e ∈ (get_request_loop stub sil t fuel retries headers0 response).headersUsed →
      e = resolveHeaders headers0 := by
  intro fuel
  induction fuel with
  | zero =>
      intro r h acc e he
      cases sil <;> rcases acc with _ | ⟨s, b⟩ <;> simp [get_request_loop] at he
  | succ n ih =>
      intro r h acc e he
      simp only [get_request_loop] at he
      cases hstub : stub r <;> rw [hstub] at he
      case exn =>
          simp only [List.mem_cons] at he
          rcases he with he | he
          · rw [he]; rfl
          · rw [ih (r + 1) _ acc e he]
            exact resolveHeaders_step h
      case resp status text =>
          by_cases h200 : (status == 200) = true
          · simp only [h200, if_true, List.mem_singleton] at he
            rw [he]; rfl
          · by_cases hrt : retryableStatus status = true
            · simp only [h200, hrt, Bool.false_eq_true, if_false, if_true,
                List.mem_cons] at he
              rcases he with he | he
              · rw [he]; rfl
              · rw [ih (r + 1) _ (some (status, text)) e he]
                exact resolveHeaders_step h
            · cases sil <;>
                simp only [h200, hrt, Bool.false_eq_true, if_false, if_true,
                  List.mem_singleton] at he <;>
                (rw [he]; rfl)

/-- With a stub that always answers status `s` and body `b`, the last
observed response after at least one iteration is `(s, b)`. -/
theorem finalResponse_const (s : Nat) (b : String) :
    ∀ (fuel retries : Nat) (acc : Option (Nat × String)),
      finalResponse (fun _ => TResult.resp s b) (fuel + 1) retries acc
        = some (s, b) := by
  intro fuel
  induction fuel with
  | zero => intro r acc; rfl
  | succ n ih =>
      intro r acc
      simp only [finalResponse]
      exact ih (r + 1) (some (s, b))

/-- With a stub that always answers an HTTP response, every iteration is a
response, so the sleep count on an all-retry run equals the budget. -/
theorem respCount_const (s : Nat) (b : String) :
    ∀ (fuel retries : Nat),
      respCount (fun _ => TResult.resp s b) fuel retries = fuel := by
  intro fuel
  induction fuel with
  | zero => intro r; rfl
  | succ n ih =>
      intro r
      simp only [respCount]
      rw [ih (r + 1)]

/-- With a stub that always raises a transport exception, no response is ever
observed. -/
theorem finalResponse_exn (stub : Stub) (hall : ∀ i, stub i = TResult.exn) :
    ∀ (fuel retries : Nat) (acc : Option (Nat × String)),
      finalResponse stub fuel retries acc = acc := by
  intro fuel
  induction fuel with
  | zero => intro r acc; rfl
  | succ n ih =>
      intro r acc
      simp only [finalResponse, hall]
      exact ih (r + 1) acc

/-- With a stub that always raises a transport exception, no iteration
receives a response, so an all-retry run performs no sleep. -/
theorem respCount_exn (stub : Stub) (hall : ∀ i, stub i = TResult.exn) :
    ∀ (fuel retries : Nat), respCount stub fuel retries = 0 := by
  intro fuel
  induction fuel with
  | zero => intro r; rfl
  | succ n ih =>
      intro r
      simp only [respCount, hall]
      exact ih (r + 1)

/-- `format_error` output never contains a newline: the rendering prefix has
none and `str(error).replace("\n", "")` removes every one from the body. -/
theorem format_error_no_newline (b : String) : '\n' ∉ (format_error b).data := by
  intro hmem
  unfold format_error at hmem
  rw [String.data_append] at hmem
  rcases List.mem_append.mp hmem with h1 | h2
  · exact absurd h1 (by decide)
  · unfold stripNewlines at h2
    have h3 := (List.mem_filter.mp h2).2
    simp at h3

/- ### Claim theorems -/

/-- Claim C1, counterexample: the claim bounds sync `post_request` by its
`retry_count` parameter (default 5), but the guard `while retries <= retry_count`
admits one more iteration: with `retry_count = 5` and an always-500 stub the
code makes 6 network attempts, not at most 5. -/
theorem c1_sync_post_budget_counterexample :
    (post_request (fun _ => TResult.resp 500 "busy") none true 5 0).attempts = 6 := rfl

/-- Claim C1, amended: every call makes at most 5 network attempts for
`get_request`, `async_get_request` and `async_post_request`, and at most
`retry_count + 1` attempts for sync `post_request`; and each call stops no
later than the attempt on which the first non-retryable outcome (HTTP 200 or
a fatal status) is observed, regardless of attempts remaining. -/
theorem c1_attempt_bound_amended (stub : Stub) (headers : Option Headers)
    (sil : Bool) (t rc : Nat) :
    (get_request stub headers sil t).attempts ≤ 5
  ∧ (async_get_request stub headers sil t).attempts ≤ 5
  ∧ (async_post_request stub headers sil t).attempts ≤ 5
  ∧ (post_request stub headers sil rc t).attempts ≤ rc + 1
  ∧ (∀ j, causesRetry (stub j) = false →
        (get_request stub headers sil t).attempts ≤ j + 1
      ∧ (async_get_request stub headers sil t).attempts ≤ j + 1
      ∧ (async_post_request stub headers sil t).attempts ≤ j + 1
      ∧ (post_request stub headers sil rc t).attempts ≤ j + 1) := by
  have hagA : (async_get_request stub headers sil t).attempts
      = (get_request stub headers sil t).attempts :=
    (async_get_request_loop_fields stub sil t 5 0 headers none).1
  have hap : async_post_request stub headers sil t
      = { get_request stub headers sil t with sleeps := [] } :=
    async_post_request_loop_eq stub sil t 5 0 headers none
  have hpe : post_request stub headers sil rc t
      = get_request_loop stub sil t (rc + 1) 0 headers none :=
    post_request_loop_eq stub sil t (rc + 1) 0 headers none
  refine ⟨?_, ?_, ?_, ?_, ?_⟩
  · exact get_request_loop_attempts_le stub sil t 5 0 headers none
  · rw [hagA]
    exact get_request_loop_attempts_le stub sil t 5 0 headers none
  · rw [hap]
    exact get_request_loop_attempts_le stub sil t 5 0 headers none
  · rw [hpe]
    exact get_request_loop_attempts_le stub sil t (rc + 1) 0 headers none
  · intro j hj
    have hj0 : causesRetry (stub (0 + j)) = false := by rw [Nat.zero_add]; exact hj
    refine ⟨?_, ?_, ?_, ?_⟩
    · exact get_request_loop_stop stub sil t 5 0 j headers none hj0
    · rw [hagA]
      exact get_request_loop_stop stub sil t 5 0 j headers none hj0
    · rw [hap]
      exact get_request_loop_stop stub sil t 5 0 j headers none hj0
    · rw [hpe]
      exact get_request_loop_stop stub sil t (rc + 1) 0 j headers none hj0

/-- Witness for the amended C1: a stub answering HTTP 200 immediately makes
the call stop after a single attempt. -/
theorem c1_attempt_bound_witness :
    (get_request (fun _ => TResult.resp 200 "OK") none false 5).attempts ≤ 0 + 1 :=
  ((c1_attempt_bound_amended (fun _ => TResult.resp 200 "OK") none false 5 3).2.2.2.2
    0 rfl).1

/-- Claim C2, counterexample: with `retry_count = 5` (the claimed
`max_attempts = N = 5`) and an always-500 stub, sync `post_request` performs
6 attempts, not exactly 5, and sleeps 6 times (after every failed attempt,
including the last), not between attempts only. -/
theorem c2_always500_counterexample :
    (post_request (fun _ => TResult.resp 500 "err") none false 5 3).attempts = 6
  ∧ (post_request (fun _ => TResult.resp 500 "err") none false 5 3).sleeps
      = [3, 3, 3, 3, 3, 3] := ⟨rfl, rfl⟩

/-- Claim C2, amended: against an always-500 stub, `get_request` and
`async_get_request` perform exactly 5 attempts with a sleep of
`retry_sleep_time` after every one of the 5 failed attempts (including the
last); sync `post_request` performs exactly `retry_count + 1` attempts with a
sleep after each; `async_post_request` performs exactly 5 attempts but no
wall-clock sleep at all (its `asyncio.sleep` is never awaited).  When
`silence_exceptions` is false, `get_request`, `post_request` and
`async_post_request` then raise the retry-exhausted `RuntimeError` carrying
status 500 and the newline-stripped body, while `async_get_request` raises a
`TypeError` carrying neither (its exhaustion f-string calls the `str`
property `response.text`); every variant returns `None` with no error when
`silence_exceptions` is true. -/
theorem c2_always500_amended (body : String) (headers : Option Headers)
    (sil : Bool) (t rc : Nat) :
    ((get_request (fun _ => TResult.resp 500 body) headers sil t).attempts = 5
      ∧ (get_request (fun _ => TResult.resp 500 body) headers sil t).sleeps
          = List.replicate 5 t
      ∧ (get_request (fun _ => TResult.resp 500 body) headers sil t).result
          = (if sil then Except.ok none
             else Except.error (PyError.runtimeRetryExhausted 500 (format_error body))))
  ∧ ((async_get_request (fun _ => TResult.resp 500 body) headers sil t).attempts = 5
      ∧ (async_get_request (fun _ => TResult.resp 500 body) headers sil t).sleeps
          = List.replicate 5 t
      ∧ (async_get_request (fun _ => TResult.resp 500 body) headers sil t).result
          = (if sil then Except.ok none
             else Except.error PyError.typeErrorStrNotCallable))
  ∧ ((async_post_request (fun _ => TResult.resp 500 body) headers sil t).attempts = 5
      ∧ (async_post_request (fun _ => TResult.resp 500 body) headers sil t).sleeps = []
      ∧ (async_post_request (fun _ => TResult.resp 500 body) headers sil t).result
          = (if sil then Except.ok none
             else Except.error (PyError.runtimeRetryExhausted 500 (format_error body))))
  ∧ ((post_request (fun _ => TResult.resp 500 body) headers sil rc t).attempts = rc + 1
      ∧ (post_request (fun _ => TResult.resp 500 body) headers sil rc t).sleeps
          = List.replicate (rc + 1) t
      ∧ (post_request (fun _ => TResult.resp 500 body) headers sil rc t).result
          = (if sil then Except.ok none
             else Except.error (PyError.runtimeRetryExhausted 500 (format_error body)))) := by
  have hall : ∀ fuel, ∀ i, 0 ≤ i → i < 0 + fuel →
      causesRetry ((fun _ => TResult.resp 500 body) i) = true := by
    intro fuel i _ _
    rfl
  have h5 := get_request_loop_all_retry (fun _ => TResult.resp 500 body) sil t
    5 0 headers none (hall 5)
  have hrc := get_request_loop_all_retry (fun _ => TResult.resp 500 body) sil t
    (rc + 1) 0 headers none (hall (rc + 1))
  have hfin5 : finalResponse (fun _ => TResult.resp 500 body) 5 0 none
      = some (500, body) := rfl
  have hcnt5 : respCount (fun _ => TResult.resp 500 body) 5 0 = 5 := rfl
  have hfinrc := finalResponse_const 500 body rc 0 (none : Option (Nat × String))
  have hcntrc := respCount_const 500 body (rc + 1) 0
  have hagf := async_get_request_loop_fields (fun _ => TResult.resp 500 body) sil t
    5 0 headers none
  have hagr := async_get_request_loop_all_retry (fun _ => TResult.resp 500 body) sil t
    5 0 headers none (hall 5)
  rw [hfin5] at hagr
  have hap : async_post_request (fun _ => TResult.resp 500 body) headers sil t
      = { get_request (fun _ => TResult.resp 500 body) headers sil t with sleeps := [] } :=
    async_post_request_loop_eq (fun _ => TResult.resp 500 body) sil t 5 0 headers none
  have hpe : post_request (fun _ => TResult.resp 500 body) headers sil rc t
      = get_request_loop (fun _ => TResult.resp 500 body) sil t (rc + 1) 0 headers none :=
    post_request_loop_eq (fun _ => TResult.resp 500 body) sil t (rc + 1) 0 headers none
  have hsl5 := h5.2.2
  rw [hcnt5] at hsl5
  have hres5 := h5.1
  rw [hfin5] at hres5
  have hslrc := hrc.2.2
  rw [hcntrc] at hslrc
  have hresrc := hrc.1
  rw [hfinrc] at hresrc
  refine ⟨⟨h5.2.1, hsl5, hres5⟩, ?_, ?_, ?_⟩
  · exact ⟨hagf.1.trans h5.2.1, hagf.2.1.trans hsl5, hagr⟩
  · rw [hap]
    exact ⟨h5.2.1, rfl, hres5⟩
  · rw [hpe]
    exact ⟨hrc.2.1, hslrc, hresrc⟩

/-- Claim C3, counterexample: when every attempt fails with a transport-level
exception and `silence_exceptions` is false, the exhaustion branch reads
`response.status_code` although `response` was never assigned, so the call
fails with Python's `UnboundLocalError`, not with a RuntimeError-class error
carrying a status and body. -/
theorem c3_all_exn_counterexample :
    (get_request (fun _ => TResult.exn) none false 5).result
      = Except.error PyError.unboundLocalResponse := rfl

/-- Claim C3, amended: when the retry budget is exhausted and
`silence_exceptions` is false, `get_request`, `post_request` and
`async_post_request` fail with the retry-exhausted `RuntimeError` carrying
the status and newline-stripped body of the last HTTP response observed
during the call, provided at least one attempt received a response;
`async_get_request` instead fails with a `TypeError` carrying neither status
nor body, because its exhaustion f-string calls the `str` property
`response.text` (main.py line 684).  When every attempt failed at transport
level, every variant fails with an `UnboundLocalError` from reading the
unassigned `response` variable.  `format_error` output indeed never contains
a newline. -/
theorem c3_retry_exhausted_amended (stub : Stub) (headers : Option Headers)
    (t rc : Nat)
    (h5 : ∀ i, i < 5 → causesRetry (stub i) = true)
    (hrc : ∀ i, i < rc + 1 → causesRetry (stub i) = true) :
    ((get_request stub headers false t).result
        = match finalResponse stub 5 0 none with
          | some (s, b) =>
              Except.error (PyError.runtimeRetryExhausted s (format_error b))
          | none => Except.error PyError.unboundLocalResponse)
  ∧ ((async_get_request stub headers false t).result
        = match finalResponse stub 5 0 none with
          | some _ => Except.error PyError.typeErrorStrNotCallable
          | none => Except.error PyError.unboundLocalResponse)
  ∧ ((async_post_request stub headers false t).result
        = match finalResponse stub 5 0 none with
          | some (s, b) =>
              Except.error (PyError.runtimeRetryExhausted s (format_error b))
          | none => Except.error PyError.unboundLocalResponse)
  ∧ ((post_request stub headers false rc t).result
        = match finalResponse stub (rc + 1) 0 none with
          | some (s, b) =>
              Except.error (PyError.runtimeRetryExhausted s (format_error b))
          | none => Except.error PyError.unboundLocalResponse)
  ∧ (∀ b : String, '\n' ∉ (format_error b).data) := by
  have h5' : ∀ i, 0 ≤ i → i < 0 + 5 → causesRetry (stub i) = true := by
    intro i _ hi
    exact h5 i (by omega)
  have hrc' : ∀ i, 0 ≤ i → i < 0 + (rc + 1) → causesRetry (stub i) = true := by
    intro i _ hi
    exact hrc i (by omega)
  have hm5 := get_request_loop_all_retry stub false t 5 0 headers none h5'
  have hmrc := get_request_loop_all_retry stub false t (rc + 1) 0 headers none hrc'
  have hagr := async_get_request_loop_all_retry stub false t 5 0 headers none h5'
  have hap : async_post_request stub headers false t
      = { get_request stub headers false t with sleeps := [] } :=
    async_post_request_loop_eq stub false t 5 0 headers none
  have hpe : post_request stub headers false rc t
      = get_request_loop stub false t (rc + 1) 0 headers none :=
    post_request_loop_eq stub false t (rc + 1) 0 headers none
  refine ⟨hm5.1, ?_, ?_, ?_, format_error_no_newline⟩
  · exact hagr
  · rw [hap]
    exact hm5.1
  · rw [hpe]
    exact hmrc.1

/-- Witness for the amended C3: five 503 responses exhaust the budget and the
call raises the retry-exhausted error carrying status 503 and the rendered
body. -/
theorem c3_retry_exhausted_witness :
    (get_request (fun _ => TResult.resp 503 "down") none false 1).result
      = Except.error (PyError.runtimeRetryExhausted 503 (format_error "down")) :=
  (c3_retry_exhausted_amended (fun _ => TResult.resp 503 "down") none 1 5
    (fun _ _ => rfl) (fun _ _ => rfl)).1

/-- Claim C4, code-bug evidence: on retryable statuses `async_get_request`
really awaits `asyncio.sleep(retry_sleep_time)` (line 669), so its run
records one wall-clock delay per failed attempt; `async_post_request` calls
`asyncio.sleep(retry_sleep_time)` without `await` (line 914), so the
coroutine is discarded and no wall-clock delay ever elapses between its
attempts, although its own comment says it sleeps. -/
theorem c4_async_sleep_divergence :
    (async_get_request (fun _ => TResult.resp 500 "throttled") none true 7).sleeps
      = [7, 7, 7, 7, 7]
  ∧ (async_post_request (fun _ => TResult.resp 500 "throttled") none true 7).sleeps = []
  ∧ (async_post_request (fun _ => TResult.resp 500 "throttled") none true 7).attempts
      = 5 :=
  ⟨rfl, rfl, rfl⟩

/-- Claim C5, counterexample: status 600 lies outside {200, 420, 429, 5xx},
so the claim requires one attempt, no sleep and an immediate unexpected-status
error; but the code's test is `status_code >= 500`, so 600 is retried: five
attempts, five sleeps, and a retry-exhausted error instead. -/
theorem c5_status600_counterexample :
    (get_request (fun _ => TResult.resp 600 "beyond") none false 2).attempts = 5
  ∧ (get_request (fun _ => TResult.resp 600 "beyond") none false 2).sleeps
      = [2, 2, 2, 2, 2]
  ∧ (get_request (fun _ => TResult.resp 600 "beyond") none false 2).result
      = Except.error (PyError.runtimeRetryExhausted 600 (format_error "beyond")) :=
  ⟨rfl, rfl, rfl⟩

/-- Claim C5, amended: for every status outside {200, 420, 429} and below
500 (e.g. 404) observed on the first attempt, each request variant makes
exactly one attempt, performs no sleep, and fails immediately when
`silence_exceptions` is false — `get_request`, `post_request` and
`async_post_request` with the unexpected-status `RuntimeError` carrying the
status code and rendered body, `async_get_request` with a `TypeError`
carrying neither (its fatal raise calls the `str` property `response.text`,
main.py line 676) — or returns `None` when `silence_exceptions` is true;
such statuses are never retried. -/
theorem c5_fatal_status_amended (s : Nat) (b : String) (stub : Stub)
    (headers : Option Headers) (sil : Bool) (t rc : Nat)
    (h200 : s ≠ 200) (h420 : s ≠ 420) (h429 : s ≠ 429) (h500 : s < 500)
    (h0 : stub 0 = TResult.resp s b) :
    ((get_request stub headers sil t).attempts = 1
      ∧ (get_request stub headers sil t).sleeps = []
      ∧ (get_request stub headers sil t).result
          = (if sil then Except.ok none
             else Except.error (PyError.runtimeUnexpectedStatus s (format_error b))))
  ∧ ((async_get_request stub headers sil t).attempts = 1
      ∧ (async_get_request stub headers sil t).sleeps = []
      ∧ (async_get_request stub headers sil t).result
          = (if sil then Except.ok none
             else Except.error PyError.typeErrorStrNotCallable))
  ∧ ((async_post_request stub headers sil t).attempts = 1
      ∧ (async_post_request stub headers sil t).sleeps = []
      ∧ (async_post_request stub headers sil t).result
          = (if sil then Except.ok none
             else Except.error (PyError.runtimeUnexpectedStatus s (format_error b))))
  ∧ ((post_request stub headers sil rc t).attempts = 1
      ∧ (post_request stub headers sil rc t).sleeps = []
      ∧ (post_request stub headers sil rc t).result
          = (if sil then Except.ok none
             else Except.error (PyError.runtimeUnexpectedStatus s (format_error b)))) := by
  have h200b : (s == 200) = false := by simp [h200]
  have hrt : retryableStatus s = false := by
    simp only [retryableStatus, Bool.or_eq_false_iff]
    refine ⟨⟨?_, ?_⟩, ?_⟩
    · simp [h420]
    · simp [h429]
    · simp only [decide_eq_false_iff_not]
      omega
  have main : ∀ fuel,
      (get_request_loop stub sil t (fuel + 1) 0 headers none).attempts = 1
      ∧ (get_request_loop stub sil t (fuel + 1) 0 headers none).sleeps = []
      ∧ (get_request_loop stub sil t (fuel + 1) 0 headers none).result
          = (if sil then Except.ok none
             else Except.error (PyError.runtimeUnexpectedStatus s (format_error b))) := by
    intro fuel
    simp only [get_request_loop]
    rw [h0]
    simp only [h200b, hrt, Bool.false_eq_true, if_false]
    cases sil <;> exact ⟨rfl, rfl, rfl⟩
  have mainAG : ∀ fuel,
      (async_get_request_loop stub sil t (fuel + 1) 0 headers none).attempts = 1
      ∧ (async_get_request_loop stub sil t (fuel + 1) 0 headers none).sleeps = []
      ∧ (async_get_request_loop stub sil t (fuel + 1) 0 headers none).result
          = (if sil then Except.ok none
             else Except.error PyError.typeErrorStrNotCallable) := by
    intro fuel
    simp only [async_get_request_loop]
    rw [h0]
    simp only [h200b, hrt, Bool.false_eq_true, if_false]
    cases sil <;> exact ⟨rfl, rfl, rfl⟩
  have hap : async_post_request stub headers sil t
      = { get_request stub headers sil t with sleeps := [] } :=
    async_post_request_loop_eq stub sil t 5 0 headers none
  have hpe : post_request stub headers sil rc t
      = get_request_loop stub sil t (rc + 1) 0 headers none :=
    post_request_loop_eq stub sil t (rc + 1) 0 headers none
  refine ⟨main 4, ?_, ?_, ?_⟩
  · exact mainAG 4
  · rw [hap]
    exact ⟨(main 4).1, rfl, (main 4).2.2⟩
  · rw [hpe]
    exact main rc

/-- Witness for the amended C5 at status 404. -/
theorem c5_fatal_status_witness :
    (get_request (fun _ => TResult.resp 404 "not found") none false 9).result
      = Except.error (PyError.runtimeUnexpectedStatus 404 (format_error "not found")) :=
  ((c5_fatal_status_amended 404 "not found" (fun _ => TResult.resp 404 "not found")
      none false 9 3 (by decide) (by decide) (by decide) (by decide) rfl).1).2.2

/-- Claim C6: transport-level exceptions never propagate directly; each one
is converted into a retry with no sleep.  With a stub that raises on the
first two attempts and returns HTTP 200 with a body on the third, every
variant (sync POST provided its budget `retry_count ≥ 2` admits a third
attempt) returns that body after exactly 3 attempts and zero sleeps; and
with a stub that always raises, a silenced call consumes its whole budget
with zero sleeps and returns `None` rather than surfacing the exception. -/
theorem c6_transport_exn_retry (stub stub2 : Stub) (body : String)
    (headers : Option Headers) (sil : Bool) (t rc : Nat)
    (h0 : stub 0 = TResult.exn) (h1 : stub 1 = TResult.exn)
    (h2 : stub 2 = TResult.resp 200 body) (hrc : 2 ≤ rc)
    (hall2 : ∀ i, stub2 i = TResult.exn) :
    ((get_request stub headers sil t).result = Except.ok (some body)
      ∧ (get_request stub headers sil t).attempts = 3
      ∧ (get_request stub headers sil t).sleeps = [])
  ∧ ((async_get_request stub headers sil t).result = Except.ok (some body)
      ∧ (async_get_request stub headers sil t).attempts = 3
      ∧ (async_get_request stub headers sil t).sleeps = [])
  ∧ ((async_post_request stub headers sil t).result = Except.ok (some body)
      ∧ (async_post_request stub headers sil t).attempts = 3
      ∧ (async_post_request stub headers sil t).sleeps = [])
  ∧ ((post_request stub headers sil rc t).result = Except.ok (some body)
      ∧ (post_request stub headers sil rc t).attempts = 3
      ∧ (post_request stub headers sil rc t).sleeps = [])
  ∧ ((get_request stub2 headers true t).result = Except.ok none
      ∧ (get_request stub2 headers true t).attempts = 5
      ∧ (get_request stub2 headers true t).sleeps = [])
  ∧ ((post_request stub2 headers true rc t).result = Except.ok none
      ∧ (post_request stub2 headers true rc t).attempts = rc + 1
      ∧ (post_request stub2 headers true rc t).sleeps = []) := by
  have main : ∀ fuel,
      (get_request_loop stub sil t (fuel + 3) 0 headers none).result
          = Except.ok (some body)
      ∧ (get_request_loop stub sil t (fuel + 3) 0 headers none).attempts = 3
      ∧ (get_request_loop stub sil t (fuel + 3) 0 headers none).sleeps = [] := by
    intro fuel
    simp [get_request_loop, h0, h1, h2]
  have hallexn : ∀ fuel, ∀ i, 0 ≤ i → i < 0 + fuel → causesRetry (stub2 i) = true := by
    intro fuel i _ _
    rw [hall2 i]
    rfl
  have hm5 := get_request_loop_all_retry stub2 true t 5 0 headers none (hallexn 5)
  have hmrc := get_request_loop_all_retry stub2 true t (rc + 1) 0 headers none
    (hallexn (rc + 1))
  have hcnt5 : respCount stub2 5 0 = 0 := respCount_exn stub2 hall2 5 0
  have hcntrc : respCount stub2 (rc + 1) 0 = 0 := respCount_exn stub2 hall2 (rc + 1) 0
  have hsl5 := hm5.2.2
  rw [hcnt5] at hsl5
  have hslrc := hmrc.2.2
  rw [hcntrc] at hslrc
  have mainAG : ∀ fuel,
      (async_get_request_loop stub sil t (fuel + 3) 0 headers none).result
          = Except.ok (some body)
      ∧ (async_get_request_loop stub sil t (fuel + 3) 0 headers none).attempts = 3
      ∧ (async_get_request_loop stub sil t (fuel + 3) 0 headers none).sleeps = [] := by
    intro fuel
    simp [async_get_request_loop, h0, h1, h2]
  have hap : async_post_request stub headers sil t
      = { get_request stub headers sil t with sleeps := [] } :=
    async_post_request_loop_eq stub sil t 5 0 headers none
  have hpe : post_request stub headers sil rc t
      = get_request_loop stub sil t (rc + 1) 0 headers none :=
    post_request_loop_eq stub sil t (rc + 1) 0 headers none
  have hpe2 : post_request stub2 headers true rc t
      = get_request_loop stub2 true t (rc + 1) 0 headers none :=
    post_request_loop_eq stub2 true t (rc + 1) 0 headers none
  obtain ⟨k, hk⟩ : ∃ k, rc + 1 = k + 3 := ⟨rc - 2, by omega⟩
  refine ⟨main 2, ?_, ?_, ?_, ⟨hm5.1, hm5.2.1, hsl5⟩, ?_⟩
  · exact mainAG 2
  · rw [hap]
    exact ⟨(main 2).1, (main 2).2.1, rfl⟩
  · rw [hpe, hk]
    exact main k
  · rw [hpe2]
    exact ⟨hmrc.1, hmrc.2.1, hslrc⟩

/-- Witness for C6: transport exceptions on attempts 1-2 and a 200 on
attempt 3 yield the attempt-3 body after exactly 3 attempts. -/
theorem c6_transport_exn_retry_witness :
    (get_request
        (fun n => if n < 2 then TResult.exn else TResult.resp 200 "third time")
        none false 4).result
      = Except.ok (some "third time") :=
  ((c6_transport_exn_retry
      (fun n => if n < 2 then TResult.exn else TResult.resp 200 "third time")
      (fun _ => TResult.exn) "third time" none false 4 2
      rfl rfl rfl (by decide) (fun _ => rfl)).1).1

/-- Claim C7: a stub answering HTTP 200 with some body on the first attempt
makes every request variant return exactly that body, after exactly one
attempt and zero sleeps. -/
theorem c7_success_first_attempt (stub : Stub) (body : String)
    (headers : Option Headers) (sil : Bool) (t rc : Nat)
    (h0 : stub 0 = TResult.resp 200 body) :
    ((get_request stub headers sil t).result = Except.ok (some body)
      ∧ (get_request stub headers sil t).attempts = 1
      ∧ (get_request stub headers sil t).sleeps = [])
  ∧ ((async_get_request stub headers sil t).result = Except.ok (some body)
      ∧ (async_get_request stub headers sil t).attempts = 1
      ∧ (async_get_request stub headers sil t).sleeps = [])
  ∧ ((async_post_request stub headers sil t).result = Except.ok (some body)
      ∧ (async_post_request stub headers sil t).attempts = 1
      ∧ (async_post_request stub headers sil t).sleeps = [])
  ∧ ((post_request stub headers sil rc t).result = Except.ok (some body)
      ∧ (post_request stub headers sil rc t).attempts = 1
      ∧ (post_request stub headers sil rc t).sleeps = []) := by
  have main : ∀ fuel,
      (get_request_loop stub sil t (fuel + 1) 0 headers none).result
          = Except.ok (some body)
      ∧ (get_request_loop stub sil t (fuel + 1) 0 headers none).attempts = 1
      ∧ (get_request_loop stub sil t (fuel + 1) 0 headers none).sleeps = [] := by
    intro fuel
    simp only [get_request_loop]
    rw [h0]
    exact ⟨rfl, rfl, rfl⟩
  have mainAG : ∀ fuel,
      (async_get_request_loop stub sil t (fuel + 1) 0 headers none).result
          = Except.ok (some body)
      ∧ (async_get_request_loop stub sil t (fuel + 1) 0 headers none).attempts = 1
      ∧ (async_get_request_loop stub sil t (fuel + 1) 0 headers none).sleeps = [] := by
    intro fuel
    simp only [async_get_request_loop]
    rw [h0]
    exact ⟨rfl, rfl, rfl⟩
  have hap : async_post_request stub headers sil t
      = { get_request stub headers sil t with sleeps := [] } :=
    async_post_request_loop_eq stub sil t 5 0 headers none
  have hpe : post_request stub headers sil rc t
      = get_request_loop stub sil t (rc + 1) 0 headers none :=
    post_request_loop_eq stub sil t (rc + 1) 0 headers none
  refine ⟨main 4, ?_, ?_, ?_⟩
  · exact mainAG 4
  · rw [hap]
    exact ⟨(main 4).1, (main 4).2.1, rfl⟩
  · rw [hpe]
    exact main rc

/-- Witness for C7 at a concrete 200 stub. -/
theorem c7_success_first_attempt_witness :
    (get_request (fun _ => TResult.resp 200 "hello") none false 5).result
      = Except.ok (some "hello") :=
  ((c7_success_first_attempt (fun _ => TResult.resp 200 "hello") "hello"
      none false 5 3 rfl).1).1

/-- Claim C8, counterexample: the claim says every status of 600 or above is
classified fatal, but the code's test `status_code >= 500` classifies 600 as
retryable: a silenced run against an always-600 stub consumes all five
attempts instead of stopping fatally after one. -/
theorem c8_status600_retryable_counterexample :
    retryableStatus 600 = true
  ∧ (get_request (fun _ => TResult.resp 600 "x") none true 1).attempts = 5 :=
  ⟨rfl, rfl⟩

/-- Claim C8, amended: a non-200 status is classified retryable (sleep and
retry) if and only if it is 420, 429, or any status of 500 or above (600+
included); every other non-200 status is fatal: observed on every attempt, a
retryable one consumes the full 5-attempt budget with 5 sleeps while a fatal
one stops the call after one attempt, no sleep, raising the
unexpected-status error. -/
theorem c8_classification_amended (s : Nat) (b : String)
    (headers : Option Headers) (t : Nat) (hne : s ≠ 200) :
    (retryableStatus s = true ↔ (s = 420 ∨ s = 429 ∨ 500 ≤ s))
  ∧ (retryableStatus s = true →
        (get_request (fun _ => TResult.resp s b) headers true t).attempts = 5
      ∧ (get_request (fun _ => TResult.resp s b) headers true t).sleeps
          = List.replicate 5 t)
  ∧ (retryableStatus s = false →
        (get_request (fun _ => TResult.resp s b) headers false t).attempts = 1
      ∧ (get_request (fun _ => TResult.resp s b) headers false t).sleeps = []
      ∧ (get_request (fun _ => TResult.resp s b) headers false t).result
          = Except.error (PyError.runtimeUnexpectedStatus s (format_error b))) := by
  refine ⟨?_, ?_, ?_⟩
  · simp [retryableStatus, or_assoc]
  · intro hr
    have hb : (s != 200) = true := by simp [hne]
    have hall : ∀ i, 0 ≤ i → i < 0 + 5 →
        causesRetry ((fun _ => TResult.resp s b) i) = true := by
      intro i _ _
      simp only [causesRetry, hb, hr, Bool.and_self]
    have hm := get_request_loop_all_retry (fun _ => TResult.resp s b) true t
      5 0 headers none hall
    have hcnt : respCount (fun _ => TResult.resp s b) 5 0 = 5 :=
      respCount_const s b 5 0
    have hsl := hm.2.2
    rw [hcnt] at hsl
    exact ⟨hm.2.1, hsl⟩
  · intro hrt
    have h200b : (s == 200) = false := by simp [hne]
    have main :
        (get_request_loop (fun _ => TResult.resp s b) false t (4 + 1) 0 headers none).attempts = 1
        ∧ (get_request_loop (fun _ => TResult.resp s b) false t (4 + 1) 0 headers none).sleeps = []
        ∧ (get_request_loop (fun _ => TResult.resp s b) false t (4 + 1) 0 headers none).result
            = Except.error (PyError.runtimeUnexpectedStatus s (format_error b)) := by
      simp only [get_request_loop]
      simp [h200b, hrt]
    exact main

/-- Witness for the amended C8 at the boundary status 600 (retryable per the
code) and at 404 (fatal). -/
theorem c8_classification_witness :
    (get_request (fun _ => TResult.resp 600 "y") none true 4).attempts = 5
  ∧ (get_request (fun _ => TResult.resp 404 "z") none false 4).attempts = 1 :=
  ⟨((c8_classification_amended 600 "y" none 4 (by decide)).2.1 rfl).1,
   ((c8_classification_amended 404 "z" none 4 (by decide)).2.2 rfl).1⟩

/-- Claim C9: running any request variant twice with the same config against
the same deterministic stub yields the same record (classification and
returned value) both times.  The four Python functions read and write only
call-local variables (`content`, `retries`, `headers`, `response`) and touch
no module-level mutable state, so each call is a pure function of the config
and the transport behaviour, and two runs coincide definitionally. -/
theorem c9_idempotent_runs (stub : Stub) (headers : Option Headers)
    (sil : Bool) (t rc : Nat) :
    get_request stub headers sil t = get_request stub headers sil t
  ∧ async_get_request stub headers sil t = async_get_request stub headers sil t
  ∧ async_post_request stub headers sil t = async_post_request stub headers sil t
  ∧ post_request stub headers sil rc t = post_request stub headers sil rc t :=
  ⟨rfl, rfl, rfl, rfl⟩

/-- Claim C10: whenever the caller-supplied headers value is falsy — an
absent value or an empty mapping alike, via the `if not headers:` test —
every transport call of every variant is issued with the default headers
dict, whose sole entry is the fixed User-Agent string. -/
theorem c10_falsy_headers_default (stub : Stub) (headers : Option Headers)
    (sil : Bool) (t rc : Nat) (hfalsy : headersFalsy headers = true) :
    default_headers
      = [("User-Agent",
          "Mozilla/5.0 (X11; Ubuntu; Linux x86_64; rv:109.0) Gecko/20100101 Firefox/119.0")]
  ∧ (∀ e ∈ (get_request stub headers sil t).headersUsed, e = default_headers)
  ∧ (∀ e ∈ (async_get_request stub headers sil t).headersUsed, e = default_headers)
  ∧ (∀ e ∈ (async_post_request stub headers sil t).headersUsed, e = default_headers)
  ∧ (∀ e ∈ (post_request stub headers sil rc t).headersUsed, e = default_headers) := by
  have hres : resolveHeaders headers = default_headers := by
    unfold resolveHeaders
    rw [hfalsy]
    rfl
  have hagH : (async_get_request stub headers sil t).headersUsed
      = (get_request stub headers sil t).headersUsed :=
    (async_get_request_loop_fields stub sil t 5 0 headers none).2.2
  have hap : async_post_request stub headers sil t
      = { get_request stub headers sil t with sleeps := [] } :=
    async_post_request_loop_eq stub sil t 5 0 headers none
  have hpe : post_request stub headers sil rc t
      = get_request_loop stub sil t (rc + 1) 0 headers none :=
    post_request_loop_eq stub sil t (rc + 1) 0 headers none
  refine ⟨rfl, ?_, ?_, ?_, ?_⟩
  · intro e he
    rw [get_request_loop_headers stub sil t 5 0 headers none e he]
    exact hres
  · rw [hagH]
    intro e he
    rw [get_request_loop_headers stub sil t 5 0 headers none e he]
    exact hres
  · rw [hap]
    intro e he
    rw [get_request_loop_headers stub sil t 5 0 headers none e he]
    exact hres
  · rw [hpe]
    intro e he
    rw [get_request_loop_headers stub sil t (rc + 1) 0 headers none e he]
    exact hres

/-- Witness for C10: an explicitly empty headers mapping still selects the
default User-Agent dict. -/
theorem c10_falsy_headers_default_witness :
    default_headers
      = [("User-Agent",
          "Mozilla/5.0 (X11; Ubuntu; Linux x86_64; rv:109.0) Gecko/20100101 Firefox/119.0")] :=
  (c10_falsy_headers_default (fun _ => TResult.resp 200 "OK") (some [])
    false 0 0 rfl).1

end Asaniczka
